import Mathlib

/-!
Verification development for a MySQL connection wrapper (`Connection`,
`src/src/connection.cpp`) and its result cursor (`QueryResult`, implementation
in the unnamed source file `part_000`, header `src/include/query_result.h`).

The C++ code is shallowly embedded: each C++ member function becomes a Lean
function on an explicit state record.  Machine-level behaviours that the code
can exhibit are made explicit in the result type `CRes`:
an exception propagating to the caller (`thrown`), undefined behaviour such as
falling off the end of a non-void function or dereferencing a null pointer
(`undef`), and non-termination of the mutually recursive
`isValid`/`getLastError` pair (`diverge`, reached when the explicit fuel runs
out).  Logger output (`LOG_DEBUG`/`LOG_INFO`/`LOG_WARNING`/`LOG_ERROR`) and
`std::cerr` prints are modelled as emitted `LogEntry` lists.
-/

/-- Outcome of running a C++ member function: a normal return, an exception
escaping to the caller, undefined behaviour, or non-termination. -/
inductive CRes (α : Type) where
  | ok : α → CRes α
  | thrown : String → CRes α
  | undef : CRes α
  | diverge : CRes α
deriving DecidableEq, Repr

/-- Logger levels of the `LOG_*` macros, plus `stderr` for direct
`std::cerr` prints in the catch blocks of the accessors. -/
inductive LogLevel where
  | debug | info | warning | error | fatal | stderr
deriving DecidableEq, Repr

/-- One emitted log record. -/
structure LogEntry where
  level : LogLevel
  msg : String
deriving DecidableEq, Repr

/-- A raw field value as stored by the driver: a byte string (list of byte
values); embedded `0` bytes are allowed, exactly as in a `MYSQL_ROW` cell. -/
abbrev Bytes := List Nat

/-- A cell of a row: `none` models a null `char*` (SQL NULL). -/
abbrev FieldVal := Option Bytes

/-- One row of a materialized result set (`MYSQL_ROW`). -/
abbrev Row := List FieldVal

/-- ASCII decimal digit. -/
def isDigitByte (c : Nat) : Bool := 48 ≤ c && c ≤ 57

/-- ASCII whitespace as recognised by `strtol`/`strtod` (space and `\t\n\v\f\r`). -/
def isSpaceByte (c : Nat) : Bool := c = 32 || (9 ≤ c && c ≤ 13)

/-- Lower-case an ASCII byte. -/
def lowerByte (c : Nat) : Nat := if 65 ≤ c && c ≤ 90 then c + 32 else c

/-- ASCII hexadecimal digit. -/
def isHexDigitByte (c : Nat) : Bool :=
  isDigitByte c || (97 ≤ lowerByte c && lowerByte c ≤ 102)

/-- Value of a decimal digit byte. -/
def digitVal (c : Nat) : Nat := c - 48

/-- Value of a hexadecimal digit byte. -/
def hexDigitVal (c : Nat) : Nat := if isDigitByte c then c - 48 else lowerByte c - 87

/-- Natural number denoted by a list of decimal digit bytes. -/
def natOfDigits (ds : Bytes) : Nat := ds.foldl (fun a d => a * 10 + digitVal d) 0

/-- Natural number denoted by a list of hexadecimal digit bytes. -/
def natOfHexDigits (ds : Bytes) : Nat := ds.foldl (fun a d => a * 16 + hexDigitVal d) 0

/-- The bytes a `const char *` pointer denotes when read as a C string:
everything before the first `0` byte. -/
def cStringBytes (bytes : Bytes) : Bytes := bytes.takeWhile (fun b => b ≠ 0)

/-- Render bytes as a Lean `String` (used for the text of log messages built
from `std::string(value)`). -/
def strOfBytes (bytes : Bytes) : String :=
  String.mk (bytes.map Char.ofNat)

/-- Split an optional leading sign byte; returns (isNegative, rest). -/
def splitSign (s : Bytes) : Bool × Bytes :=
  match s with
  | 45 :: rest => (true, rest)
  | 43 :: rest => (false, rest)
  | _ => (false, s)

/-- `strtol(s, _, 10)` parse on a C string: optional whitespace, optional sign,
at least one decimal digit (trailing bytes ignored); `none` when no digits can
be consumed, otherwise the exact (unclamped) integer value. -/
def strtolParse (s : Bytes) : Option Int :=
  let s1 := s.dropWhile isSpaceByte
  let (neg, s2) := splitSign s1
  let ds := s2.takeWhile isDigitByte
  if ds.isEmpty then none
  else some (if neg then -(natOfDigits ds : Int) else (natOfDigits ds : Int))

def intMinVal : Int := -2147483648
def intMaxVal : Int := 2147483647
def llMinVal : Int := -9223372036854775808
def llMaxVal : Int := 9223372036854775807

/-- `std::stoi(value)`: `none` models a thrown `std::invalid_argument` (no
conversion) or `std::out_of_range` (value outside `int`). -/
def stoiFn (bytes : Bytes) : Option Int :=
  match strtolParse (cStringBytes bytes) with
  | none => none
  | some n => if intMinVal ≤ n ∧ n ≤ intMaxVal then some n else none

/-- `std::stoll(value)`: as `stoiFn` with the `long long` range. -/
def stollFn (bytes : Bytes) : Option Int :=
  match strtolParse (cStringBytes bytes) with
  | none => none
  | some n => if llMinVal ≤ n ∧ n ≤ llMaxVal then some n else none

/-- Carrier for `double` results.  Finite values are carried as the exact
decimal/hexadecimal rational denoted by the parsed text; the claims under
verification only ever inspect the zero value, which IEEE-754 represents
exactly, so rounding to binary64 is not modelled. -/
inductive DoubleV where
  | finite : ℚ → DoubleV
  | posInf | negInf | nan
deriving DecidableEq

/-- Largest finite binary64 value, `(2 - 2^-52) * 2^1023`. -/
def maxDoubleVal : ℚ := ((2:ℚ)^1024 - (2:ℚ)^971)

/-- Parse an optional `e`/`p` exponent part: returns the signed exponent, `0`
when the exponent marker or its digits are absent (in which case `strtod`
leaves the marker unconsumed and still succeeds on the mantissa). -/
def parseExpPart (marker : Nat) (rest : Bytes) : Int :=
  match rest with
  | c :: r =>
    if lowerByte c = marker then
      let (eneg, r2) := splitSign r
      let eds := r2.takeWhile isDigitByte
      if eds.isEmpty then 0
      else if eneg then -(natOfDigits eds : Int) else (natOfDigits eds : Int)
    else 0
  | [] => 0

/-- `strtod` parse on a C string: whitespace, sign, then `inf`/`nan`, a
hexadecimal literal (`0x` mantissa with optional binary `p` exponent), or a
decimal literal with optional fraction and `e` exponent.  `none` models a
thrown `std::invalid_argument` (no conversion) or `std::out_of_range`
(overflow beyond the largest finite double); gradual underflow is not
modelled. -/
def strtodParse (s : Bytes) : Option DoubleV :=
  let s1 := s.dropWhile isSpaceByte
  let (neg, s2) := splitSign s1
  let low := s2.map lowerByte
  if low.take 3 = [105, 110, 102] then
    some (if neg then .negInf else .posInf)
  else if low.take 3 = [110, 97, 110] then
    some .nan
  else if low.take 2 = [48, 120] then
    let body := s2.drop 2
    let ip := body.takeWhile isHexDigitByte
    let rest1 := body.drop ip.length
    let (fp, rest2) :=
      match rest1 with
      | 46 :: r => (r.takeWhile isHexDigitByte, r.drop (r.takeWhile isHexDigitByte).length)
      | _ => (([] : Bytes), rest1)
    if ip.isEmpty && fp.isEmpty then
      some (.finite 0)
    else
      let e := parseExpPart 112 rest2
      let mant : ℚ := (natOfHexDigits (ip ++ fp) : ℚ) / (16:ℚ) ^ fp.length
      let q0 : ℚ := mant * (2:ℚ) ^ e
      let q : ℚ := if neg then -q0 else q0
      if |q| ≤ maxDoubleVal then some (.finite q) else none
  else
    let ip := s2.takeWhile isDigitByte
    let rest1 := s2.drop ip.length
    let (fp, rest2) :=
      match rest1 with
      | 46 :: r => (r.takeWhile isDigitByte, r.drop (r.takeWhile isDigitByte).length)
      | _ => (([] : Bytes), rest1)
    if ip.isEmpty && fp.isEmpty then none
    else
      let e := parseExpPart 101 rest2
      let mant : ℚ := (natOfDigits (ip ++ fp) : ℚ) / (10:ℚ) ^ fp.length
      let q0 : ℚ := mant * (10:ℚ) ^ e
      let q : ℚ := if neg then -q0 else q0
      if |q| ≤ maxDoubleVal then some (.finite q) else none

/-- `std::stod(value)` on a C string. -/
def stodFn (bytes : Bytes) : Option DoubleV := strtodParse (cStringBytes bytes)

/-- The driver-owned result-set resource (`MYSQL_RES`): the column names, the
fully materialized rows (the code always uses `mysql_store_result`), and the
internal read position advanced by `mysql_fetch_row` and rewound by
`mysql_data_seek`.  The position is internal driver state behind the
`MYSQL_RES *` pointer, not a member of `QueryResult`. -/
structure MySqlRes where
  fields : List String
  rows : List Row
  pos : Nat
deriving DecidableEq

/-- The `QueryResult` object: members exactly as declared in
`query_result.h` (`m_result`, `m_currentRow`, `m_lengths`, `m_fieldCount`,
`m_rowCount` (`m_rows` in the header), `m_affectedRows`, `m_fieldNames`). -/
structure QueryResult where
  m_result : Option MySqlRes
  m_currentRow : Option Row
  m_lengths : Option (List Nat)
  m_fieldCount : Nat
  m_rowCount : Nat
  m_affectedRows : Nat
  m_fieldNames : List String
deriving DecidableEq

namespace QueryResult

/-- `QueryResult::initializeMetaData`: derives `m_fieldCount`
(`mysql_num_fields`), `m_rowCount` (`mysql_num_rows`) and the ordered field
name list from the result set; no-op when `m_result` is null. -/
def initializeMetaData (q : QueryResult) : QueryResult :=
  match q.m_result with
  | none => q
  | some res =>
    { q with m_fieldCount := res.fields.length,
             m_rowCount := res.rows.length,
             m_fieldNames := res.fields }

/-- The `QueryResult(MYSQL_RES*, unsigned long long)` constructor: stores the
resource and affected-row count, nulls the row state, and extracts the
metadata when a result set is present. -/
def create (result : Option MySqlRes) (affectedRows : Nat) : QueryResult :=
  initializeMetaData
    { m_result := result, m_currentRow := none, m_lengths := none,
      m_fieldCount := 0, m_rowCount := 0, m_affectedRows := affectedRows,
      m_fieldNames := [] }

/-- `QueryResult::next`: `false` without a result set; otherwise
`mysql_fetch_row` at the current position — on a row, advance, store the row
and its per-field byte lengths (`mysql_fetch_lengths`, 0 for SQL NULL) and
return `true`; at the end, `m_currentRow` becomes null (and `m_lengths` keeps
its previous value, exactly as in the source, which only assigns it inside the
row-present branch). -/
def next (q : QueryResult) : Bool × QueryResult :=
  match q.m_result with
  | none => (false, q)
  | some res =>
    match res.rows[res.pos]? with
    | some row =>
      (true, { q with m_result := some { res with pos := res.pos + 1 },
                      m_currentRow := some row,
                      m_lengths := some (row.map (fun v => (v.getD []).length)) })
    | none => (false, { q with m_currentRow := none })

/-- `QueryResult::reset`: `false` without a result set; otherwise
`mysql_data_seek(m_result, 0)` and null out `m_currentRow`/`m_lengths`. -/
def reset (q : QueryResult) : Bool × QueryResult :=
  match q.m_result with
  | none => (false, q)
  | some res =>
    (true, { q with m_result := some { res with pos := 0 },
                    m_currentRow := none, m_lengths := none })

def getFieldCount (q : QueryResult) : Nat := q.m_fieldCount

def getRowCount (q : QueryResult) : Nat := q.m_rowCount

def getAffectedRows (q : QueryResult) : Nat := q.m_affectedRows

def getFieldNames (q : QueryResult) : List String := q.m_fieldNames

def isEmpty (q : QueryResult) : Bool := q.m_result.isSome && q.m_rowCount = 0

def hasResultSet (q : QueryResult) : Bool := q.m_result.isSome

/-- The message of the `std::out_of_range` thrown by
`QueryResult::checkIndex`; `m_fieldCount - 1` is computed in `unsigned int`
arithmetic, so it wraps around at zero. -/
def indexMsg (q : QueryResult) (index : Nat) : String :=
  "Field index out of range: " ++ toString index ++ ", max = " ++
    toString ((q.m_fieldCount + 4294967295) % 4294967296)

/-- The message of the `std::runtime_error` thrown by `QueryResult::checkRow`. -/
def noRowMsg : String := "No currentRow available, call next() first."

/-- `QueryResult::checkIndex`: throws `std::out_of_range` when
`index >= m_fieldCount`. -/
def checkIndex (q : QueryResult) (index : Nat) : Except String Unit :=
  if q.m_fieldCount ≤ index then .error (q.indexMsg index) else .ok ()

/-- `QueryResult::checkRow`: throws `std::runtime_error` when `m_currentRow`
is null. -/
def checkRow (q : QueryResult) : Except String Unit :=
  match q.m_currentRow with
  | none => .error noRowMsg
  | some _ => .ok ()

/-- Text of the `LOG_WARNING` emitted by `QueryResult::safeConvert` on a
conversion failure (`e.what()` of libstdc++'s `std::stoi`/`stoll`/`stod` is
the function name for both `invalid_argument` and `out_of_range`). -/
def convFailMsg (value : Bytes) (tyName : String) (ewhat : String) : String :=
  "Failed to convert '" ++ strOfBytes (cStringBytes value) ++ "' to " ++ tyName
    ++ ": " ++ ewhat

/-- `QueryResult::safeConvert(const char*, int)`: null gives the default; a
conversion failure logs a warning and gives the default. -/
def safeConvertInt (value : Option Bytes) (defaultValue : Int) :
    Int × List LogEntry :=
  match value with
  | none => (defaultValue, [])
  | some bytes =>
    match stoiFn bytes with
    | some n => (n, [])
    | none => (defaultValue, [⟨.warning, convFailMsg bytes "int" "stoi"⟩])

/-- `QueryResult::safeConvert(const char*, long long)`. -/
def safeConvertLong (value : Option Bytes) (defaultValue : Int) :
    Int × List LogEntry :=
  match value with
  | none => (defaultValue, [])
  | some bytes =>
    match stollFn bytes with
    | some n => (n, [])
    | none => (defaultValue, [⟨.warning, convFailMsg bytes "long long" "stoll"⟩])

/-- `QueryResult::safeConvert(const char*, double)`. -/
def safeConvertDouble (value : Option Bytes) (defaultValue : DoubleV) :
    DoubleV × List LogEntry :=
  match value with
  | none => (defaultValue, [])
  | some bytes =>
    match stodFn bytes with
    | some v => (v, [])
    | none => (defaultValue, [⟨.warning, convFailMsg bytes "double" "stod"⟩])

/-- `QueryResult::getString(unsigned int)`.  Structure of the source: when
both `m_result` and `m_currentRow` are non-null the whole body runs inside a
`try` whose `catch` prints `e.what()` to `std::cerr` and then lets control
fall off the end of the non-void function — undefined behaviour, modelled as
`.undef`.  When either pointer is null, a `std::runtime_error` is thrown to
the caller.  A null cell returns the empty string; otherwise
`std::string(m_currentRow[index], m_lengths[index])` takes exactly
`m_lengths[index]` bytes (reading past the cell's buffer would be undefined
behaviour). -/
def getString (q : QueryResult) (index : Nat) : CRes Bytes × List LogEntry :=
  match q.m_result, q.m_currentRow with
  | some _, some row =>
    match q.checkIndex index with
    | .error e => (.undef, [⟨.stderr, e⟩])
    | .ok _ =>
      match row.get? index with
      | none => (.undef, [])
      | some none => (.ok [], [])
      | some (some v) =>
        match q.m_lengths with
        | none => (.undef, [])
        | some ls =>
          match ls.get? index with
          | none => (.undef, [])
          | some len => if len ≤ v.length then (.ok (v.take len), []) else (.undef, [])
  | none, _ => (.thrown "this is non-select operation, cannot getString", [])
  | some _, none => (.thrown "Please invoke next() before getString()", [])

/-- `QueryResult::getInt(unsigned int)`.  The body runs inside a `try` whose
`catch` prints to `std::cerr` and falls off the end of the non-void function:
the exceptions of `checkIndex`/`checkRow` are swallowed and the call is
undefined behaviour (`.undef`), not a failure raised to the caller.  A null
cell returns 0, otherwise `safeConvert(value, 0)`. -/
def getInt (q : QueryResult) (index : Nat) : CRes Int × List LogEntry :=
  match q.checkIndex index with
  | .error e => (.undef, [⟨.stderr, e⟩])
  | .ok _ =>
    match q.m_currentRow with
    | none => (.undef, [⟨.stderr, noRowMsg⟩])
    | some row =>
      match row.get? index with
      | none => (.undef, [])
      | some none => (.ok 0, [])
      | some (some bytes) =>
        let (v, lg) := safeConvertInt (some bytes) 0
        (.ok v, lg)

/-- `QueryResult::getLong(unsigned int)`: same structure as `getInt`. -/
def getLong (q : QueryResult) (index : Nat) : CRes Int × List LogEntry :=
  match q.checkIndex index with
  | .error e => (.undef, [⟨.stderr, e⟩])
  | .ok _ =>
    match q.m_currentRow with
    | none => (.undef, [⟨.stderr, noRowMsg⟩])
    | some row =>
      match row.get? index with
      | none => (.undef, [])
      | some none => (.ok 0, [])
      | some (some bytes) =>
        let (v, lg) := safeConvertLong (some bytes) 0
        (.ok v, lg)

/-- `QueryResult::getDouble(unsigned int)`: same structure as `getInt`. -/
def getDouble (q : QueryResult) (index : Nat) : CRes DoubleV × List LogEntry :=
  match q.checkIndex index with
  | .error e => (.undef, [⟨.stderr, e⟩])
  | .ok _ =>
    match q.m_currentRow with
    | none => (.undef, [⟨.stderr, noRowMsg⟩])
    | some row =>
      match row.get? index with
      | none => (.undef, [])
      | some none => (.ok (.finite 0), [])
      | some (some bytes) =>
        let (v, lg) := safeConvertDouble (some bytes) (.finite 0)
        (.ok v, lg)

/-- `QueryResult::isNull(unsigned int)`: same `try`/`catch` structure as
`getInt`; with a valid index and current row it returns whether the cell's
`char*` is null. -/
def isNull (q : QueryResult) (index : Nat) : CRes Bool × List LogEntry :=
  match q.checkIndex index with
  | .error e => (.undef, [⟨.stderr, e⟩])
  | .ok _ =>
    match q.m_currentRow with
    | none => (.undef, [⟨.stderr, noRowMsg⟩])
    | some row =>
      match row.get? index with
      | none => (.undef, [])
      | some v => (.ok v.isNone, [])

end QueryResult

/-- The native `MYSQL *` handle's observable state: the last error text and
code the driver recorded for it (`mysql_error` / `mysql_errno`). -/
structure MySqlHandle where
  lastError : String
  lastErrorCode : Nat
deriving DecidableEq

/-- Behaviour of the external world (server/driver) during one call: whether
`mysql_real_connect`, `mysql_ping`, and `mysql_query` succeed, and the error
text/code the driver records on the handle when each fails. -/
structure DriverEnv where
  handshakeOk : Bool
  handshakeErr : String
  handshakeErrCode : Nat
  pingOk : Bool
  pingErr : String
  pingErrCode : Nat
  queryOk : Bool
  queryErr : String
  queryErrCode : Nat
deriving DecidableEq

/-- The `Connection` object's members, in header order, plus three observation
channels that are not C++ members: the emitted logger records, the statement
texts passed to `mysql_query`, and the number of `mysql_close` /
`mysql_real_connect` invocations. -/
structure ConnState where
  m_mysql : Option MySqlHandle
  m_host : String
  m_user : String
  m_password : String
  m_database : String
  m_port : Nat
  m_connectionId : String
  m_creationTime : Int
  m_lastActiveTime : Int
  m_connected : Bool
  log : List LogEntry
  submitted : List String
  closedCount : Nat
  handshakes : Nat
deriving DecidableEq

namespace ConnState

/-- Emit one logger record. -/
def addLog (s : ConnState) (lv : LogLevel) (msg : String) : ConnState :=
  { s with log := s.log ++ [⟨lv, msg⟩] }

/-- The driver records an error on the handle (no-op on a null handle). -/
def setHandleErr (s : ConnState) (msg : String) (code : Nat) : ConnState :=
  { s with m_mysql := s.m_mysql.map fun h => { h with lastError := msg, lastErrorCode := code } }

end ConnState

namespace Connection

/-!
`Connection::isValid` and `Connection::getLastError` are mutually recursive in
the source: `isValid`'s ping-failure branch builds its log message with
`getLastError()`, and `getLastError` first calls `isValid()`.  (The lock is a
`std::recursive_mutex`, so the nesting does not deadlock; with a persistently
failing ping it recurses without bound.)  The Lean model makes that explicit
with a fuel parameter; running out of fuel yields `.diverge`.
-/

mutual

/-- `Connection::isValid`: fail fast with a warning when the handle is null or
not connected; otherwise `mysql_ping` — on success refresh `m_lastActiveTime`
and return true; on failure log the driver error (obtained through a nested
`getLastError()` call) and return false. -/
def isValid : Nat → ConnState → DriverEnv → Int → CRes (Bool × ConnState)
  | 0, _, _, _ => .diverge
  | fuel+1, s, env, now =>
    match s.m_mysql with
    | none =>
      .ok (false, s.addLog .warning
        ("Please initialize mysql connection object [" ++ s.m_connectionId ++ "]"))
    | some _ =>
      if !s.m_connected then
        .ok (false, s.addLog .warning
          ("Please connect to MySQL Server [" ++ s.m_connectionId ++ "]"))
      else if env.pingOk then
        .ok (true, { s with m_lastActiveTime := now })
      else
        let s1 := s.setHandleErr env.pingErr env.pingErrCode
        match getLastError fuel s1 env now with
        | .ok (err, s2) =>
          .ok (false, s2.addLog .error
            ("Connection validation failed [" ++ s2.m_connectionId ++ "]: " ++ err))
        | .thrown e => .thrown e
        | .undef => .undef
        | .diverge => .diverge

/-- `Connection::getLastError`: liveness check first — when invalid, the
sentinel text; when valid, `mysql_error(m_mysql)`. -/
def getLastError : Nat → ConnState → DriverEnv → Int → CRes (String × ConnState)
  | 0, _, _, _ => .diverge
  | fuel+1, s, env, now =>
    match isValid fuel s env now with
    | .ok (valid, s1) =>
      if !valid then .ok ("MySQL connection not established!", s1)
      else
        match s1.m_mysql with
        | some h => .ok (h.lastError, s1)
        | none => .undef
    | .thrown e => .thrown e
    | .undef => .undef
    | .diverge => .diverge

end

/-- `Connection::getLastErrorCode`: liveness check first — when invalid, the
sentinel code 0; when valid, `mysql_errno(m_mysql)`. -/
def getLastErrorCode (fuel : Nat) (s : ConnState) (env : DriverEnv) (now : Int) :
    CRes (Nat × ConnState) :=
  match isValid fuel s env now with
  | .ok (valid, s1) =>
    if !valid then .ok (0, s1)
    else
      match s1.m_mysql with
      | some h => .ok (h.lastErrorCode, s1)
      | none => .undef
  | .thrown e => .thrown e
  | .undef => .undef
  | .diverge => .diverge

/-- `Connection::connect`: already connected → warn and return true
immediately (no handshake); null handle → error and false; otherwise
`mysql_real_connect` — on success set `m_connected`, refresh
`m_lastActiveTime`, log and return true; on failure build the log text from
`getLastError()` (called while `m_connected` is still false) and return
false. -/
def connect (fuel : Nat) (s : ConnState) (env : DriverEnv) (now : Int) :
    CRes (Bool × ConnState) :=
  if s.m_connected then
    .ok (true, s.addLog .warning
      ("connection to MySQL Server has established [" ++ s.m_connectionId ++ "]"))
  else
    match s.m_mysql with
    | none =>
      .ok (false, s.addLog .error
        ("MySQL connection object not initialized [" ++ s.m_connectionId ++ "]"))
    | some _ =>
      let s1 := s.addLog .info ("Connecting to MySQL server [" ++ s.m_connectionId ++ "]")
      let s2 := { s1 with handshakes := s1.handshakes + 1 }
      if env.handshakeOk then
        let s3 := { s2 with m_connected := true, m_lastActiveTime := now }
        .ok (true, s3.addLog .info
          ("Successfully to connect to MySQL Server: [" ++ s3.m_connectionId ++ "]"))
      else
        let s3 := s2.setHandleErr env.handshakeErr env.handshakeErrCode
        match getLastError fuel s3 env now with
        | .ok (err, s4) =>
          .ok (false, s4.addLog .error
            ("Failed to connect to MySQL Server: [" ++ s4.m_connectionId ++ "]: " ++ err))
        | .thrown e => .thrown e
        | .undef => .undef
        | .diverge => .diverge

/-- `Connection::close`: when the handle is non-null, `mysql_close` it, null
the reference and clear `m_connected`; always log. -/
def close (s : ConnState) : ConnState :=
  let s1 :=
    match s.m_mysql with
    | some _ =>
      { s with m_mysql := none, m_connected := false, closedCount := s.closedCount + 1 }
    | none => s
  s1.addLog .info ("MySQL Connection closed [" ++ s1.m_connectionId ++ "]")

/-- `Connection::beginTransaction`: guard (null handle or not connected →
error log, return false), debug log, submit "START TRANSACTION"; success →
refresh `m_lastActiveTime`, true; failure → error log with `getLastError()`,
false. -/
def beginTransaction (fuel : Nat) (s : ConnState) (env : DriverEnv) (now : Int) :
    CRes (Bool × ConnState) :=
  if s.m_mysql.isNone || !s.m_connected then
    .ok (false, s.addLog .error ("Connection not established [" ++ s.m_connectionId ++ "]"))
  else
    let s1 := s.addLog .debug ("start transaction [" ++ s.m_connectionId ++ "]")
    let s2 := { s1 with submitted := s1.submitted ++ ["START TRANSACTION"] }
    if env.queryOk then
      .ok (true, { s2 with m_lastActiveTime := now })
    else
      let s3 := s2.setHandleErr env.queryErr env.queryErrCode
      match getLastError fuel s3 env now with
      | .ok (err, s4) =>
        .ok (false, s4.addLog .error
          ("Failed to begin transaction [" ++ s4.m_connectionId ++ "]: " ++ err))
      | .thrown e => .thrown e
      | .undef => .undef
      | .diverge => .diverge

/-- `Connection::commit`: same shape as `beginTransaction` with "COMMIT". -/
def commit (fuel : Nat) (s : ConnState) (env : DriverEnv) (now : Int) :
    CRes (Bool × ConnState) :=
  if s.m_mysql.isNone || !s.m_connected then
    .ok (false, s.addLog .error ("Connection not established! [" ++ s.m_connectionId ++ "]"))
  else
    let s1 := s.addLog .debug ("commit transaction [" ++ s.m_connectionId ++ "]")
    let s2 := { s1 with submitted := s1.submitted ++ ["COMMIT"] }
    if env.queryOk then
      .ok (true, { s2 with m_lastActiveTime := now })
    else
      let s3 := s2.setHandleErr env.queryErr env.queryErrCode
      match getLastError fuel s3 env now with
      | .ok (err, s4) =>
        .ok (false, s4.addLog .error
          ("Failed to commit transaction [" ++ s4.m_connectionId ++ "]: " ++ err))
      | .thrown e => .thrown e
      | .undef => .undef
      | .diverge => .diverge

/-- `Connection::rollback`.  Unlike `beginTransaction`/`commit`, the source's
guard only logs: the `return false` is missing (it survives only as a
commented-out `throw`), so control falls through to `mysql_query(m_mysql,
"ROLLBACK")` even when the handle is null (undefined behaviour) or the
connection was never established. -/
def rollback (fuel : Nat) (s : ConnState) (env : DriverEnv) (now : Int) :
    CRes (Bool × ConnState) :=
  let s0 :=
    if s.m_mysql.isNone || !s.m_connected then
      s.addLog .error ("Connection not eatablished [" ++ s.m_connectionId ++ "]")
    else s
  let s1 := s0.addLog .debug ("roll back transaction [" ++ s0.m_connectionId ++ "]")
  match s1.m_mysql with
  | none => .undef
  | some _ =>
    let s2 := { s1 with submitted := s1.submitted ++ ["ROLLBACK"] }
    if env.queryOk then
      .ok (true, { s2 with m_lastActiveTime := now })
    else
      let s3 := s2.setHandleErr env.queryErr env.queryErrCode
      match getLastError fuel s3 env now with
      | .ok (err, s4) =>
        .ok (false, s4.addLog .error
          ("Failed to rollback [" ++ s4.m_connectionId ++ "]: " ++ err))
      | .thrown e => .thrown e
      | .undef => .undef
      | .diverge => .diverge

end Connection

/-- Normal-return boolean of a connection call, when there is one. -/
def CRes.retBool : CRes (Bool × ConnState) → Option Bool
  | .ok (b, _) => some b
  | _ => none

/-- Post-state of a connection call, when it returned normally. -/
def CRes.postState : CRes (Bool × ConnState) → Option ConnState
  | .ok (_, s) => some s
  | _ => none

/-! Sample fixtures used by witnesses and concrete evaluations. -/

/-- A two-column result set with one row: field "id" = "4", field "name" =
SQL NULL. -/
def sampleRes1 : MySqlRes := { fields := ["id", "name"], rows := [[some [52], none]], pos := 0 }

/-- Cursor over `sampleRes1` before any `next()`. -/
def qc0 : QueryResult := QueryResult.create (some sampleRes1) 0

/-- Cursor over `sampleRes1` after one successful `next()`. -/
def qc1 : QueryResult := qc0.next.2

/-- A one-column result set whose single value is the non-numeric text
"abc". -/
def sampleRes2 : MySqlRes := { fields := ["v"], rows := [[some [97, 98, 99]]], pos := 0 }

def qd0 : QueryResult := QueryResult.create (some sampleRes2) 0

def qd1 : QueryResult := qd0.next.2

/-- A one-column result set whose single value contains an embedded zero
byte: "h\0i" (3 bytes). -/
def sampleRes3 : MySqlRes := { fields := ["b"], rows := [[some [104, 0, 105]]], pos := 0 }

def qe0 : QueryResult := QueryResult.create (some sampleRes3) 0

def qe1 : QueryResult := qe0.next.2

/-- `checkIndex` succeeds on an in-range index. -/
theorem QueryResult.checkIndex_ok (q : QueryResult) (index : Nat)
    (h : index < q.m_fieldCount) : q.checkIndex index = .ok () := by
  simp [QueryResult.checkIndex, not_le.mpr h]

/-- C1: the claim says every index-based typed accessor raises an
out-of-range failure for a bad index and a no-current-row failure when no row
is current.  The code instead catches those exceptions inside the accessor
(printing to cerr) and lets control fall off the end of a non-void function —
undefined behaviour (`.undef`), not a failure raised to the caller; only
`getString`'s no-current-row case actually throws.  Concrete evaluation on a
2-field cursor: index 5 with a current row, and index 0 before any
`next()`. -/
theorem accessors_swallow_cursor_failures :
    (qc1.getInt 5).1 = .undef ∧ (qc1.getLong 5).1 = .undef ∧
    (qc1.getDouble 5).1 = .undef ∧ (qc1.isNull 5).1 = .undef ∧
    (qc1.getString 5).1 = .undef ∧
    (qc0.getInt 0).1 = .undef ∧ (qc0.isNull 0).1 = .undef ∧
    (qc0.getString 0).1 = .thrown "Please invoke next() before getString()" := by
  decide

/-- C4: with a result set, a current row established by a successful
`next()`, and a valid index whose cell is SQL NULL, `isNull` returns true,
`getString` the empty string, `getInt`/`getLong` zero and `getDouble` 0.0 —
with nothing logged and nothing thrown. -/
theorem null_field_semantics (q : QueryResult) (row : Row) (index : Nat)
    (hres : q.m_result.isSome = true) (hrow : q.m_currentRow = some row)
    (hidx : index < q.m_fieldCount) (hval : row[index]? = some none) :
    q.isNull index = (.ok true, []) ∧
    q.getString index = (.ok [], []) ∧
    q.getInt index = (.ok 0, []) ∧
    q.getLong index = (.ok 0, []) ∧
    q.getDouble index = (.ok (.finite 0), []) := by
  obtain ⟨res, hres'⟩ := Option.isSome_iff_exists.mp hres
  refine ⟨?_, ?_, ?_, ?_, ?_⟩ <;>
    simp [QueryResult.isNull, QueryResult.getString, QueryResult.getInt,
      QueryResult.getLong, QueryResult.getDouble, q.checkIndex_ok index hidx,
      hres', hrow, hval]

/-- C4 witness: the NULL "name" field of `sampleRes1` after one `next()`. -/
theorem null_field_semantics_witness :
    qc1.isNull 1 = (.ok true, []) ∧
    qc1.getString 1 = (.ok [], []) ∧
    qc1.getInt 1 = (.ok 0, []) ∧
    qc1.getLong 1 = (.ok 0, []) ∧
    qc1.getDouble 1 = (.ok (.finite 0), []) :=
  null_field_semantics qc1 [some [52], none] 1 rfl rfl (by decide) rfl

/-- C5: with a current row and a valid index, a non-NULL cell whose text does
not convert to the requested numeric type makes `getInt`/`getLong`/`getDouble`
log one warning and return the type's zero value — a normal return, never an
exception to the caller. -/
theorem conversion_failure_is_soft (q : QueryResult) (row : Row) (index : Nat)
    (bytes : Bytes) (hrow : q.m_currentRow = some row)
    (hidx : index < q.m_fieldCount) (hval : row[index]? = some (some bytes)) :
    (stoiFn bytes = none →
      q.getInt index = (.ok 0, [⟨.warning, QueryResult.convFailMsg bytes "int" "stoi"⟩])) ∧
    (stollFn bytes = none →
      q.getLong index = (.ok 0, [⟨.warning, QueryResult.convFailMsg bytes "long long" "stoll"⟩])) ∧
    (stodFn bytes = none →
      q.getDouble index = (.ok (.finite 0), [⟨.warning, QueryResult.convFailMsg bytes "double" "stod"⟩])) := by
  refine ⟨fun hi => ?_, fun hl => ?_, fun hd => ?_⟩
  · simp [QueryResult.getInt, QueryResult.safeConvertInt,
      q.checkIndex_ok index hidx, hrow, hval, hi]
  · simp [QueryResult.getLong, QueryResult.safeConvertLong,
      q.checkIndex_ok index hidx, hrow, hval, hl]
  · simp [QueryResult.getDouble, QueryResult.safeConvertDouble,
      q.checkIndex_ok index hidx, hrow, hval, hd]

/-- C5 witness: the text "abc" does not parse as int, long long or double,
so each of the three per-type implications fires at it. -/
theorem conversion_failure_is_soft_witness :
    qd1.getInt 0 = (.ok 0, [⟨.warning, QueryResult.convFailMsg [97, 98, 99] "int" "stoi"⟩]) ∧
    qd1.getLong 0 = (.ok 0, [⟨.warning, QueryResult.convFailMsg [97, 98, 99] "long long" "stoll"⟩]) ∧
    qd1.getDouble 0 = (.ok (.finite 0), [⟨.warning, QueryResult.convFailMsg [97, 98, 99] "double" "stod"⟩]) :=
  ⟨(conversion_failure_is_soft qd1 [some [97, 98, 99]] 0 [97, 98, 99]
      rfl (by decide) rfl).1 (by decide),
   (conversion_failure_is_soft qd1 [some [97, 98, 99]] 0 [97, 98, 99]
      rfl (by decide) rfl).2.1 (by decide),
   (conversion_failure_is_soft qd1 [some [97, 98, 99]] 0 [97, 98, 99]
      rfl (by decide) rfl).2.2 (by decide)⟩

/-- C10: after a successful `next()`, `getString` on a valid index with a
non-NULL value returns exactly the bytes of that cell — whose length is the
per-field length entry `next()` fetched — with embedded zero bytes preserved
(no truncation at the first null terminator). -/
theorem getString_full_byte_length (q q' : QueryResult) (row : Row) (index : Nat)
    (v : Bytes) (hnext : q.next = (true, q')) (hrow : q'.m_currentRow = some row)
    (hidx : index < q'.m_fieldCount) (hval : row[index]? = some (some v)) :
    q'.getString index = (.ok v, []) ∧
    q'.m_lengths = some (row.map (fun c => (c.getD []).length)) ∧
    (row.map (fun c => (c.getD []).length))[index]? = some v.length := by
  match hm : q.m_result with
  | none => rw [QueryResult.next] at hnext; simp [hm] at hnext
  | some res =>
    match hg : res.rows[res.pos]? with
    | none =>
      rw [QueryResult.next] at hnext
      simp [hm, hg] at hnext
    | some row0 =>
      rw [QueryResult.next] at hnext
      simp only [hm, hg] at hnext
      have hq' := (Prod.mk.injEq _ _ _ _).mp hnext |>.2
      have hrow0 : q'.m_currentRow = some row0 := by rw [← hq']
      have hrr : row0 = row := by
        have := hrow0.symm.trans hrow
        exact (Option.some.injEq _ _).mp this
      subst hrr
      have hlen : q'.m_lengths = some (row0.map (fun c => (c.getD []).length)) := by
        rw [← hq']
      have hres' : q'.m_result = some { res with pos := res.pos + 1 } := by rw [← hq']
      have hentry : (row0.map (fun c => (c.getD []).length))[index]? = some v.length := by
        rw [List.getElem?_map, hval]
        rfl
      refine ⟨?_, hlen, hentry⟩
      simp [QueryResult.getString, hres', hrow0, hval, hlen, hentry,
        q'.checkIndex_ok index hidx]

/-- C10 witness: a 3-byte value "h\0i" with an embedded zero byte comes back
whole. -/
theorem getString_full_byte_length_witness :
    qe1.getString 0 = (.ok [104, 0, 105], []) ∧
    qe1.m_lengths = some ([some [104, 0, 105]].map (fun c => (c.getD []).length)) ∧
    ([some ([104, 0, 105] : Bytes)].map (fun c => (c.getD []).length))[0]? = some ([104, 0, 105] : Bytes).length :=
  getString_full_byte_length qe0 qe1 [some [104, 0, 105]] 0 [104, 0, 105]
    rfl rfl (by decide) rfl

/-- A navigation call on the cursor: `next()` or `reset()`. -/
inductive CursorOp where
  | next | reset
deriving DecidableEq

/-- Apply one navigation call, keeping the post-state. -/
def applyOp (q : QueryResult) : CursorOp → QueryResult
  | .next => q.next.2
  | .reset => q.reset.2

/-- Apply a sequence of navigation calls. -/
def applyOps (q : QueryResult) : List CursorOp → QueryResult
  | [] => q
  | op :: rest => applyOps (applyOp q op) rest

/-- One `next()`/`reset()` changes nothing but `m_currentRow`, `m_lengths`
and the result set's internal read position: the metadata members and the
resource's columns and rows are untouched. -/
theorem applyOp_frame (q : QueryResult) (op : CursorOp) :
    (applyOp q op).m_fieldCount = q.m_fieldCount ∧
    (applyOp q op).m_rowCount = q.m_rowCount ∧
    (applyOp q op).m_affectedRows = q.m_affectedRows ∧
    (applyOp q op).m_fieldNames = q.m_fieldNames ∧
    (applyOp q op).m_result.map MySqlRes.fields = q.m_result.map MySqlRes.fields ∧
    (applyOp q op).m_result.map MySqlRes.rows = q.m_result.map MySqlRes.rows := by
  cases op with
  | next =>
    match hm : q.m_result with
    | none => simp [applyOp, QueryResult.next, hm]
    | some res =>
      match hg : res.rows[res.pos]? with
      | none => simp [applyOp, QueryResult.next, hm, hg]
      | some row => simp [applyOp, QueryResult.next, hm, hg]
  | reset =>
    match hm : q.m_result with
    | none => simp [applyOp, QueryResult.reset, hm]
    | some res => simp [applyOp, QueryResult.reset, hm]

/-- C8: `getFieldCount()`, `getRowCount()` and `getFieldNames()` (and
`getAffectedRows()`) return after any sequence of `next()`/`reset()` calls
exactly what they returned at construction; the calls leave every member of
the cursor unchanged except `m_currentRow`, `m_lengths` and the driver-side
read position behind the (unchanged) `m_result` pointer, whose column and row
data are also untouched. -/
theorem metadata_stable_under_navigation (q : QueryResult) (ops : List CursorOp) :
    (applyOps q ops).getFieldCount = q.getFieldCount ∧
    (applyOps q ops).getRowCount = q.getRowCount ∧
    (applyOps q ops).getFieldNames = q.getFieldNames ∧
    (applyOps q ops).getAffectedRows = q.getAffectedRows ∧
    (applyOps q ops).m_result.map MySqlRes.fields = q.m_result.map MySqlRes.fields ∧
    (applyOps q ops).m_result.map MySqlRes.rows = q.m_result.map MySqlRes.rows := by
  induction ops generalizing q with
  | nil => exact ⟨rfl, rfl, rfl, rfl, rfl, rfl⟩
  | cons op rest ih =>
    have h := applyOp_frame q op
    have h' := ih (applyOp q op)
    have e : applyOps q (op :: rest) = applyOps (applyOp q op) rest := rfl
    rw [e]
    exact ⟨h'.1.trans h.1, h'.2.1.trans h.2.1, h'.2.2.1.trans h.2.2.2.1,
      h'.2.2.2.1.trans h.2.2.1, h'.2.2.2.2.1.trans h.2.2.2.2.1,
      h'.2.2.2.2.2.trans h.2.2.2.2.2⟩

/-- A fresh handle with no recorded error. -/
def sampleHandle : MySqlHandle := { lastError := "", lastErrorCode := 0 }

/-- A `Connection` right after construction: handle allocated, not yet
connected. -/
def baseConn : ConnState :=
  { m_mysql := some sampleHandle, m_host := "localhost", m_user := "admin",
    m_password := "123456", m_database := "testdb", m_port := 3306,
    m_connectionId := "cid1", m_creationTime := 100, m_lastActiveTime := 100,
    m_connected := false, log := [], submitted := [], closedCount := 0,
    handshakes := 0 }

/-- `baseConn` with the native handle gone (as after `close()`). -/
def nullHandleConn : ConnState := { baseConn with m_mysql := none }

/-- A connected `Connection` whose handle has "boom" (code 1213) as its last
recorded driver error. -/
def liveConn : ConnState :=
  { baseConn with
    m_connected := true,
    m_mysql := some { lastError := "boom", lastErrorCode := 1213 } }

/-- A driver that accepts everything. -/
def envAccept : DriverEnv :=
  { handshakeOk := true, handshakeErr := "", handshakeErrCode := 0,
    pingOk := true, pingErr := "", pingErrCode := 0,
    queryOk := true, queryErr := "", queryErrCode := 0 }

/-- A driver whose handshake fails with "Access denied for user" (1045). -/
def envHandshakeFail : DriverEnv :=
  { envAccept with
    handshakeOk := false,
    handshakeErr := "Access denied for user",
    handshakeErrCode := 1045 }

/-- C2: the claim says each of `beginTransaction`/`commit`/`rollback` returns
false without submitting its control statement when the handle is missing or
the connection not connected.  `beginTransaction` and `commit` do exactly
that, but `rollback`'s guard is missing its `return false`: on a
disconnected connection with an allocated handle it logs the failure, then
submits "ROLLBACK" anyway and (when the driver accepts it) returns true; on a
null handle it goes on to dereference the null `MYSQL*` (undefined
behaviour). -/
theorem rollback_guard_falls_through :
    (Connection.rollback 3 baseConn envAccept 7).retBool = some true ∧
    (Connection.rollback 3 baseConn envAccept 7).postState.map ConnState.submitted
      = some ["ROLLBACK"] ∧
    Connection.rollback 3 nullHandleConn envAccept 7 = .undef ∧
    (Connection.beginTransaction 3 baseConn envAccept 7).retBool = some false ∧
    (Connection.beginTransaction 3 baseConn envAccept 7).postState.map ConnState.submitted
      = some [] ∧
    (Connection.commit 3 baseConn envAccept 7).retBool = some false ∧
    (Connection.commit 3 baseConn envAccept 7).postState.map ConnState.submitted
      = some [] := by
  decide

/-- C3 counterexample: the claim says a failed handshake makes `connect()`
capture and log the driver's last recorded error text.  With the driver
recording "Access denied for user", the only error-level record logged by
`connect()` carries the sentinel "MySQL connection not established!" — the
text `getLastError()` returns because `m_connected` is still false — and not
the driver's text. -/
theorem connect_does_not_log_driver_text :
    (Connection.connect 3 baseConn envHandshakeFail 9).retBool = some false ∧
    (Connection.connect 3 baseConn envHandshakeFail 9).postState.map
        (fun s => (s.log.filter (fun e => e.level == LogLevel.error)).map LogEntry.msg)
      = some ["Failed to connect to MySQL Server: [cid1]: MySQL connection not established!"] ∧
    envHandshakeFail.handshakeErr = "Access denied for user" ∧
    ("Failed to connect to MySQL Server: [cid1]: MySQL connection not established!" ≠
      "Failed to connect to MySQL Server: [cid1]: " ++ envHandshakeFail.handshakeErr) := by
  decide

/-- C3 (amended): on a handshake failure, `connect()` returns false without
throwing, records the driver error on the handle, and logs — but the text it
captures through `getLastError()` is the sentinel "MySQL connection not
established!" (the liveness guard fails because `m_connected` is still
false), not the driver's recorded error text. -/
theorem connect_failure_logs_sentinel (s : ConnState) (h : MySqlHandle)
    (env : DriverEnv) (now : Int) (n : Nat) (hc : s.m_connected = false)
    (hm : s.m_mysql = some h) (hfail : env.handshakeOk = false) :
    Connection.connect (n+2) s env now = .ok (false,
      { s with
        m_mysql := some { h with lastError := env.handshakeErr,
                                 lastErrorCode := env.handshakeErrCode },
        handshakes := s.handshakes + 1,
        log := s.log ++
          [⟨.info, "Connecting to MySQL server [" ++ s.m_connectionId ++ "]"⟩,
           ⟨.warning, "Please connect to MySQL Server [" ++ s.m_connectionId ++ "]"⟩,
           ⟨.error, "Failed to connect to MySQL Server: [" ++ s.m_connectionId ++
             "]: " ++ "MySQL connection not established!"⟩] }) := by
  simp [Connection.connect, Connection.getLastError, Connection.isValid,
    ConnState.addLog, ConnState.setHandleErr, hc, hm, hfail]

/-- C3 witness: the amended behaviour at the concrete fixture. -/
theorem connect_failure_logs_sentinel_witness :
    Connection.connect 2 baseConn envHandshakeFail 9 = .ok (false,
      { baseConn with
        m_mysql := some { sampleHandle with lastError := envHandshakeFail.handshakeErr,
                                            lastErrorCode := envHandshakeFail.handshakeErrCode },
        handshakes := baseConn.handshakes + 1,
        log := baseConn.log ++
          [⟨.info, "Connecting to MySQL server [" ++ baseConn.m_connectionId ++ "]"⟩,
           ⟨.warning, "Please connect to MySQL Server [" ++ baseConn.m_connectionId ++ "]"⟩,
           ⟨.error, "Failed to connect to MySQL Server: [" ++ baseConn.m_connectionId ++
             "]: " ++ "MySQL connection not established!"⟩] }) :=
  connect_failure_logs_sentinel baseConn sampleHandle envHandshakeFail 9 0 rfl rfl rfl

/-- C6: `connect()` is idempotent.  A first successful call returns true,
performs exactly one handshake and sets `m_lastActiveTime`; a further call on
the now-connected instance returns true immediately, performs no handshake,
and leaves `m_lastActiveTime` exactly as the first call set it (so it is
never older than the first call's value). -/
theorem connect_idempotent (s : ConnState) (h : MySqlHandle) (env1 env2 : DriverEnv)
    (t1 t2 : Int) (n1 n2 : Nat) (hm : s.m_mysql = some h)
    (hc : s.m_connected = false) (hok : env1.handshakeOk = true) :
    ∃ s1, Connection.connect n1 s env1 t1 = .ok (true, s1) ∧
      s1.m_lastActiveTime = t1 ∧ s1.m_connected = true ∧
      s1.handshakes = s.handshakes + 1 ∧
      ∃ s2, Connection.connect n2 s1 env2 t2 = .ok (true, s2) ∧
        s2.m_lastActiveTime = s1.m_lastActiveTime ∧
        s2.handshakes = s1.handshakes := by
  refine ⟨{ s with
      m_connected := true, m_lastActiveTime := t1,
      handshakes := s.handshakes + 1,
      log := s.log ++
        [⟨.info, "Connecting to MySQL server [" ++ s.m_connectionId ++ "]"⟩,
         ⟨.info, "Successfully to connect to MySQL Server: [" ++ s.m_connectionId ++ "]"⟩] },
    ?_, rfl, rfl, rfl,
    ⟨{ s with
      m_connected := true, m_lastActiveTime := t1,
      handshakes := s.handshakes + 1,
      log := s.log ++
        [⟨.info, "Connecting to MySQL server [" ++ s.m_connectionId ++ "]"⟩,
         ⟨.info, "Successfully to connect to MySQL Server: [" ++ s.m_connectionId ++ "]"⟩,
         ⟨.warning, "connection to MySQL Server has established [" ++ s.m_connectionId ++ "]"⟩] },
    ?_, rfl, rfl⟩⟩
  · simp [Connection.connect, hm, hc, hok, ConnState.addLog]
  · simp [Connection.connect, ConnState.addLog]

/-- C6 witness: two `connect()` calls on the fresh fixture with an accepting
driver. -/
theorem connect_idempotent_witness :
    ∃ s1, Connection.connect 1 baseConn envAccept 5 = .ok (true, s1) ∧
      s1.m_lastActiveTime = 5 ∧ s1.m_connected = true ∧
      s1.handshakes = baseConn.handshakes + 1 ∧
      ∃ s2, Connection.connect 1 s1 envAccept 6 = .ok (true, s2) ∧
        s2.m_lastActiveTime = s1.m_lastActiveTime ∧
        s2.handshakes = s1.handshakes :=
  connect_idempotent baseConn sampleHandle envAccept envAccept 5 6 1 1 rfl rfl rfl

/-- C7: `close()` is idempotent and safe to repeat, also on a never-connected
object.  After the first call the handle reference is empty and
`m_connected` is false; the handle is released exactly once when it was
allocated (and never when it was not); and each further call changes nothing
except appending one more info log line.  The hypothesis is the constructor
invariant that a missing handle implies not-connected. -/
theorem close_idempotent (s : ConnState)
    (hinv : s.m_mysql = none → s.m_connected = false) :
    (Connection.close s).m_mysql = none ∧
    (Connection.close s).m_connected = false ∧
    (Connection.close s).closedCount
      = s.closedCount + (if s.m_mysql.isSome then 1 else 0) ∧
    ∀ n : Nat, Connection.close^[n] (Connection.close s) =
      { Connection.close s with
        log := (Connection.close s).log ++
          List.replicate n ⟨.info, "MySQL Connection closed [" ++ s.m_connectionId ++ "]"⟩ } := by
  have hclosed : ∀ t : ConnState, t.m_mysql = none →
      Connection.close t = { t with log := t.log ++
        [⟨.info, "MySQL Connection closed [" ++ t.m_connectionId ++ "]"⟩] } := by
    intro t ht
    simp [Connection.close, ConnState.addLog, ht]
  match hm : s.m_mysql with
  | some h0 =>
    have hcs : Connection.close s =
        { s with m_mysql := none, m_connected := false,
                 closedCount := s.closedCount + 1,
                 log := s.log ++ [⟨.info, "MySQL Connection closed [" ++ s.m_connectionId ++ "]"⟩] } := by
      simp [Connection.close, ConnState.addLog, hm]
    refine ⟨by rw [hcs], by rw [hcs], by rw [hcs]; simp [hm], ?_⟩
    intro n
    induction n with
    | zero => simp
    | succ n ih =>
      rw [Function.iterate_succ_apply', ih, hclosed _ (by rw [hcs]),
        List.replicate_succ']
      simp [hcs, List.append_assoc]
  | none =>
    have hc0 : s.m_connected = false := hinv hm
    have hcs := hclosed s hm
    refine ⟨by rw [hcs]; exact hm, by rw [hcs]; exact hc0, by rw [hcs]; simp [hm], ?_⟩
    intro n
    induction n with
    | zero => simp
    | succ n ih =>
      rw [Function.iterate_succ_apply', ih, hclosed _ (by rw [hcs]; exact hm),
        List.replicate_succ']
      simp [hcs, List.append_assoc]

/-- C7 witness: repeated `close()` on the never-connected fixture. -/
theorem close_idempotent_witness :
    (Connection.close baseConn).m_mysql = none ∧
    (Connection.close baseConn).m_connected = false ∧
    (Connection.close baseConn).closedCount
      = baseConn.closedCount + (if baseConn.m_mysql.isSome then 1 else 0) ∧
    ∀ n : Nat, Connection.close^[n] (Connection.close baseConn) =
      { Connection.close baseConn with
        log := (Connection.close baseConn).log ++
          List.replicate n ⟨.info, "MySQL Connection closed [" ++ baseConn.m_connectionId ++ "]"⟩ } :=
  close_idempotent baseConn (fun h => Option.noConfusion h)

/-- C9: on a connected connection whose liveness ping succeeds,
`getLastError()` returns the driver's recorded error text and
`getLastErrorCode()` its code, and the only field either call changes is
`m_lastActiveTime`, refreshed to the current time by the nested `isValid()`
(nothing is logged either). -/
theorem lastError_refreshes_activity_only (s : ConnState) (h : MySqlHandle)
    (env : DriverEnv) (now : Int) (n : Nat) (hm : s.m_mysql = some h)
    (hc : s.m_connected = true) (hping : env.pingOk = true) :
    Connection.getLastError (n+2) s env now
      = .ok (h.lastError, { s with m_lastActiveTime := now }) ∧
    Connection.getLastErrorCode (n+1) s env now
      = .ok (h.lastErrorCode, { s with m_lastActiveTime := now }) := by
  constructor <;>
    simp [Connection.getLastError, Connection.getLastErrorCode,
      Connection.isValid, hm, hc, hping]

/-- C9 witness: the live fixture whose handle records "boom" / 1213. -/
theorem lastError_refreshes_activity_only_witness :
    Connection.getLastError 2 liveConn envAccept 42
      = .ok ("boom", { liveConn with m_lastActiveTime := 42 }) ∧
    Connection.getLastErrorCode 1 liveConn envAccept 42
      = .ok (1213, { liveConn with m_lastActiveTime := 42 }) :=
  lastError_refreshes_activity_only liveConn
    { lastError := "boom", lastErrorCode := 1213 } envAccept 42 0 rfl rfl rfl
